import Mathlib

/-!
Shallow embedding of `statsmodels/stats/rates.py`: tests for the ratio of
Poisson intensities in two independent samples.

The module consists of three functions:
* `test_poisson_2indep`  — score/wald/sqrt asymptotic and exact-conditional tests,
* `etest_poisson_2indep` — enumeration-based E-test,
* `tost_poisson_2indep`  — TOST equivalence test built from two one-sided tests.

Python floats are modelled by `ℝ`; integer counts by `ℕ`; exposures and the
null ratio, which arrive as plain numeric literals, by `ℚ` (coerced into `ℝ`
inside the computations).  A Python `raise` is modelled by `Except.error`.

External collaborators that live outside `src/` are modelled explicitly:
* the standard-normal CDF (scipy) is a parameter `Phi : ℝ → ℝ`;
* `_zstat_generic2` (statsmodels.stats.weightstats) is `zstat_generic2`,
  modelled from the spec;
* `binom_test` (statsmodels.stats.proportion) is a parameter `B`;
* scipy's `binom.pmf` / `poisson.pmf` are `binom_pmf` / `poisson_pmf`,
  written with their textbook definitions;
* scipy's `poisson.isf` truncation point in the E-test is a parameter `T`
  (the source then applies the floor `max T 100` itself, src line 175).
-/

noncomputable section

/-- Result record of `test_poisson_2indep` (`HolderTuple`, src lines 116-123).
`statistic` is `none` for the exact conditional methods, where the Python code
stores `None`. -/
structure HolderTuple where
  statistic : Option ℝ
  pvalue : ℝ
  distribution : String
  method : String
  alternative : String
  rates : ℝ × ℝ
  ratio : ℝ
  ratio_null : ℝ

/-- `d = exposure2 / exposure1`, `r_d = ratio_null / d` (src lines 81-83). -/
def r_d_of (exposure1 exposure2 ratio_null : ℚ) : ℝ :=
  (ratio_null : ℝ) / ((exposure2 : ℝ) / (exposure1 : ℝ))

/-- Denominator of the score statistic in `test_poisson_2indep` (src line 86):
`sqrt((y1 + y2) * r_d)`, with no additive epsilon. -/
def test_stat_score_denom (r_d y1 y2 : ℝ) : ℝ :=
  Real.sqrt ((y1 + y2) * r_d)

/-- Score statistic of `test_poisson_2indep` (src line 86). -/
def test_stat_score (r_d y1 y2 : ℝ) : ℝ :=
  (y1 - y2 * r_d) / test_stat_score_denom r_d y1 y2

/-- Wald statistic of `test_poisson_2indep` (src line 89). -/
def test_stat_wald (r_d y1 y2 : ℝ) : ℝ :=
  (y1 - y2 * r_d) / Real.sqrt (y1 + y2 * r_d ^ 2)

/-- Square-root (variance stabilized) statistic of `test_poisson_2indep`
(src lines 92-93). -/
def test_stat_sqrt (r_d y1 y2 : ℝ) : ℝ :=
  2 * (Real.sqrt (y1 + 3 / 8) - Real.sqrt ((y2 + 3 / 8) * r_d)) / Real.sqrt (1 + r_d)

/-- Modelled from the spec: `_zstat_generic2` of
`statsmodels.stats.weightstats` is not under `src/`.  The spec gives the
p-value formulas for the three alternatives: two-sided `2*(1 - Phi |stat|)`,
larger `1 - Phi stat`, smaller `Phi stat`, and an invalid-argument failure
for any other alternative string.  `Phi` is the standard-normal CDF. -/
def zstat_generic2 (Phi : ℝ → ℝ) (stat : ℝ) (alternative : String) : Except String ℝ :=
  if alternative ∈ (["two-sided"] : List String) then Except.ok (2 * (1 - Phi |stat|))
  else if alternative ∈ (["larger"] : List String) then Except.ok (1 - Phi stat)
  else if alternative ∈ (["smaller"] : List String) then Except.ok (Phi stat)
  else Except.error ("invalid alternative")

/-- Binomial point probability `Pr(Y = k | Binomial(n, p))`
(scipy's `stats.binom.pmf`, an external collaborator). -/
def binom_pmf (k n : ℕ) (p : ℝ) : ℝ :=
  (n.choose k : ℝ) * p ^ k * (1 - p) ^ (n - k)

/-- Poisson point probability `Pr(Y = k | Poisson(mu))`
(scipy's `stats.poisson.pmf`, an external collaborator). -/
def poisson_pmf (k : ℕ) (mu : ℝ) : ℝ :=
  Real.exp (-mu) * mu ^ k / (Nat.factorial k : ℝ)

/-- Method dispatch of `test_poisson_2indep` (src lines 85-112): produces the
optional statistic, the distribution tag and the p-value, or the
`method not recognized` error.  `Phi` is the standard-normal CDF and `B` the
external one-sample exact binomial test
`B successes trials prob alternative = pvalue`
(`statsmodels.stats.proportion.binom_test`, not under `src/`). -/
def test_core (Phi : ℝ → ℝ) (B : ℕ → ℕ → ℝ → String → Except String ℝ)
    (count1 count2 : ℕ) (r_d : ℝ) (method alternative : String) :
    Except String (Option ℝ × String × ℝ) :=
  if method ∈ (["score"] : List String) then
    (zstat_generic2 Phi (test_stat_score r_d (count1 : ℝ) (count2 : ℝ)) alternative).map
      (fun p => (some (test_stat_score r_d (count1 : ℝ) (count2 : ℝ)), "normal", p))
  else if method ∈ (["wald"] : List String) then
    (zstat_generic2 Phi (test_stat_wald r_d (count1 : ℝ) (count2 : ℝ)) alternative).map
      (fun p => (some (test_stat_wald r_d (count1 : ℝ) (count2 : ℝ)), "normal", p))
  else if method ∈ (["sqrt"] : List String) then
    (zstat_generic2 Phi (test_stat_sqrt r_d (count1 : ℝ) (count2 : ℝ)) alternative).map
      (fun p => (some (test_stat_sqrt r_d (count1 : ℝ) (count2 : ℝ)), "normal", p))
  else if method ∈ (["exact-cond", "cond-midp"] : List String) then
    (B count1 (count1 + count2) (r_d / (1 + r_d)) alternative).map
      (fun pv =>
        (none, "binomial",
          if method ∈ (["cond-midp"] : List String) then
            pv - 0.5 * binom_pmf count1 (count1 + count2) (r_d / (1 + r_d))
          else pv))
  else Except.error ("method not recognized")

/-- `test_poisson_2indep` (src lines 16-124): test for the ratio of two
sample Poisson intensities.  Returns the `HolderTuple` result record, with
`rates`, `ratio` and the echo fields built at src lines 114-123. -/
def test_poisson_2indep (Phi : ℝ → ℝ) (B : ℕ → ℕ → ℝ → String → Except String ℝ)
    (count1 : ℕ) (exposure1 : ℚ) (count2 : ℕ) (exposure2 : ℚ) (ratio_null : ℚ)
    (method alternative : String) : Except String HolderTuple :=
  (test_core Phi B count1 count2 (r_d_of exposure1 exposure2 ratio_null)
      method alternative).map
    (fun sdp =>
      { statistic := sdp.1
        pvalue := sdp.2.2
        distribution := sdp.2.1
        method := method
        alternative := alternative
        rates := ((count1 : ℝ) / (exposure1 : ℝ), (count2 : ℝ) / (exposure2 : ℝ))
        ratio := ((count1 : ℝ) / (exposure1 : ℝ)) / ((count2 : ℝ) / (exposure2 : ℝ))
        ratio_null := (ratio_null : ℝ) })

/-- `tost_poisson_2indep` (src lines 196-263): equivalence (TOST) test.  Two
one-sided calls to `test_poisson_2indep`, at the lower margin with
alternative `larger` and at the upper margin with alternative `smaller`;
the combined p-value is the maximum of the two.  The source performs no
validation of `low`/`upp`. -/
def tost_poisson_2indep (Phi : ℝ → ℝ) (B : ℕ → ℕ → ℝ → String → Except String ℝ)
    (count1 : ℕ) (exposure1 : ℚ) (count2 : ℕ) (exposure2 : ℚ) (low upp : ℚ)
    (method : String) : Except String (ℝ × HolderTuple × HolderTuple) :=
  (test_poisson_2indep Phi B count1 exposure1 count2 exposure2 low method ("larger")).bind
    (fun tt1 =>
      (test_poisson_2indep Phi B count1 exposure1 count2 exposure2 upp method
          ("smaller")).map
        (fun tt2 => (max tt1.pvalue tt2.pvalue, tt1, tt2)))

/-- Statistic function of the E-test (src lines 139-149): the score or wald
formula with the additive epsilon `1e-20` in the denominator, guarding the
division by zero at `x1 = x2 = 0`.  The `else` branch is the wald formula;
the caller only reaches it with `method = "wald"`. -/
def etest_stat_func (method : String) (r_d x1 x2 : ℝ) : ℝ :=
  if method ∈ (["score"] : List String) then
    (x1 - x2 * r_d) / Real.sqrt ((x1 + x2) * r_d + 1e-20)
  else
    (x1 - x2 * r_d) / Real.sqrt (x1 + x2 * r_d ^ 2 + 1e-20)

/-- Constrained MLE of the second rate under the null (src line 159):
`(y1 + y2) / n2 / (1 + r_d)`. -/
def etest_rate2_cmle (count1 count2 : ℕ) (n2 r_d : ℝ) : ℝ :=
  ((count1 : ℝ) + (count2 : ℝ)) / n2 / (1 + r_d)

/-- Null Poisson mean of the first sample (src lines 160-163):
`mean1 = n1 * (rate2_cmle * r)`. -/
def etest_mean1 (count1 count2 : ℕ) (n1 n2 r r_d : ℝ) : ℝ :=
  n1 * (etest_rate2_cmle count1 count2 n2 r_d * r)

/-- Null Poisson mean of the second sample (src lines 162-164):
`mean2 = n2 * rate2_cmle`. -/
def etest_mean2 (count1 count2 : ℕ) (n2 r_d : ℝ) : ℝ :=
  n2 * etest_rate2_cmle count1 count2 n2 r_d

/-- `etest_poisson_2indep` (src lines 127-193): E-test for the two-sample
Poisson comparison.  `T` stands for the scipy `poisson.isf(1e-13, …)`
truncation point (an external collaborator); the source floors it at 100 and
enumerates the grid `0 … max T 100` (src lines 174-176).

When `ygrid` is supplied (`some _`), the source never assigns the local
variable `y_grid` — the assignment at src line 176 is guarded by
`if ygrid is None` — so the reference to `y_grid` at src line 177 raises a
Python `NameError`, modelled here by `Except.error`. -/
def etest_poisson_2indep (T : ℕ) (count1 : ℕ) (exposure1 : ℚ) (count2 : ℕ)
    (exposure2 : ℚ) (ratio_null : ℚ) (method alternative : String)
    (ygrid : Option (List ℕ)) : Except String (ℝ × ℝ) :=
  let r_d := r_d_of exposure1 exposure2 ratio_null
  if method ∈ (["score", "wald"] : List String) then
    let mean1 := etest_mean1 count1 count2 (exposure1 : ℝ) (exposure2 : ℝ)
      (ratio_null : ℝ) r_d
    let mean2 := etest_mean2 count1 count2 (exposure2 : ℝ) r_d
    let stat_sample := etest_stat_func method r_d (count1 : ℝ) (count2 : ℝ)
    match ygrid with
    | some _ => Except.error ("NameError: y_grid is not defined")
    | none =>
      let y_grid := Finset.range (max T 100 + 1)
      if alternative ∈ (["two-sided", "2-sided", "2s"] : List String) then
        Except.ok (stat_sample,
          ∑ i ∈ y_grid, ∑ j ∈ y_grid,
            if |etest_stat_func method r_d (i : ℝ) (j : ℝ)| ≥ |stat_sample| - 1e-15 then
              poisson_pmf i mean1 * poisson_pmf j mean2
            else 0)
      else if alternative ∈ (["larger", "l"] : List String) then
        Except.ok (stat_sample,
          ∑ i ∈ y_grid, ∑ j ∈ y_grid,
            if etest_stat_func method r_d (i : ℝ) (j : ℝ) ≥ stat_sample - 1e-15 then
              poisson_pmf i mean1 * poisson_pmf j mean2
            else 0)
      else if alternative ∈ (["smaller", "s"] : List String) then
        Except.ok (stat_sample,
          ∑ i ∈ y_grid, ∑ j ∈ y_grid,
            if etest_stat_func method r_d (i : ℝ) (j : ℝ) ≤ stat_sample + 1e-15 then
              poisson_pmf i mean1 * poisson_pmf j mean2
            else 0)
      else Except.error ("invalid alternative")
  else Except.error ("method not recognized")

/-- A concrete standard-normal-CDF stand-in used by witnesses: the constant
one-half function, which satisfies the reflection identity of the normal CDF. -/
def Phi0 : ℝ → ℝ := fun _ => 1 / 2

/-- A concrete stand-in for the external exact binomial test, used by
witnesses: it always reports the p-value one-half. -/
def B0 : ℕ → ℕ → ℝ → String → Except String ℝ := fun _ _ _ _ => Except.ok (1 / 2)

/-- Concrete result record produced by
`test_poisson_2indep Phi0 B0 10 100 15 100 1 "exact-cond" "two-sided"`;
used by a witness below. -/
def exact_cond_record : HolderTuple :=
  { statistic := none
    pvalue := 1 / 2
    distribution := "binomial"
    method := "exact-cond"
    alternative := "two-sided"
    rates := (((10 : ℕ) : ℝ) / ((100 : ℚ) : ℝ), ((15 : ℕ) : ℝ) / ((100 : ℚ) : ℝ))
    ratio := (((10 : ℕ) : ℝ) / ((100 : ℚ) : ℝ)) / (((15 : ℕ) : ℝ) / ((100 : ℚ) : ℝ))
    ratio_null := ((1 : ℚ) : ℝ) }

/-! ## Helper lemmas -/

lemma r_d_of_pos (e1 e2 rn : ℚ) (h1 : 0 < e1) (h2 : 0 < e2) (hr : 0 < rn) :
    0 < r_d_of e1 e2 rn := by
  unfold r_d_of
  have hd : (0 : ℝ) < (e2 : ℝ) / (e1 : ℝ) :=
    div_pos (by exact_mod_cast h2) (by exact_mod_cast h1)
  exact div_pos (by exact_mod_cast hr) hd

lemma r_d_of_swap_inv (e1 e2 rn : ℚ) (h1 : 0 < e1) (h2 : 0 < e2) (hr : 0 < rn) :
    r_d_of e2 e1 rn⁻¹ = (r_d_of e1 e2 rn)⁻¹ := by
  unfold r_d_of
  have he1 : ((e1 : ℝ)) ≠ 0 := ne_of_gt (by exact_mod_cast h1)
  have he2 : ((e2 : ℝ)) ≠ 0 := ne_of_gt (by exact_mod_cast h2)
  have hrn : ((rn : ℝ)) ≠ 0 := ne_of_gt (by exact_mod_cast hr)
  push_cast
  field_simp

lemma poisson_pmf_zero_mean (k : ℕ) : poisson_pmf k 0 = if k = 0 then 1 else 0 := by
  unfold poisson_pmf
  cases k with
  | zero => simp
  | succ n => simp [zero_pow]

lemma etest_mean1_zero (n1 n2 r rd : ℝ) : etest_mean1 0 0 n1 n2 r rd = 0 := by
  simp [etest_mean1, etest_rate2_cmle]

lemma etest_mean2_zero (n2 rd : ℝ) : etest_mean2 0 0 n2 rd = 0 := by
  simp [etest_mean2, etest_rate2_cmle]

lemma etest_stat_func_zero0 (m : String) (rd : ℝ) : etest_stat_func m rd 0 0 = 0 := by
  unfold etest_stat_func
  split <;> simp

lemma sum_delta_one (n : ℕ) (f : ℕ → ℕ → ℝ) (h00 : f 0 0 = 1)
    (h0 : ∀ i j, i ≠ 0 ∨ j ≠ 0 → f i j = 0) :
    (∑ i ∈ Finset.range (n + 1), ∑ j ∈ Finset.range (n + 1), f i j) = 1 := by
  rw [Finset.sum_eq_single 0]
  · rw [Finset.sum_eq_single 0]
    · exact h00
    · intro b _ hb; exact h0 0 b (Or.inr hb)
    · intro hmem; exact absurd (Finset.mem_range.2 (Nat.succ_pos n)) hmem
  · intro b _ hb
    exact Finset.sum_eq_zero (fun j _ => h0 b j (Or.inl hb))
  · intro hmem; exact absurd (Finset.mem_range.2 (Nat.succ_pos n)) hmem

lemma stat_score_swap (p : ℝ) (hp : 0 < p) (a b : ℝ) (hab : 0 ≤ a + b) :
    test_stat_score p⁻¹ b a = -test_stat_score p a b := by
  unfold test_stat_score test_stat_score_denom
  have hq : 0 < Real.sqrt p := Real.sqrt_pos.2 hp
  have hqz : Real.sqrt p ≠ 0 := ne_of_gt hq
  rw [show b + a = a + b from add_comm b a]
  rw [Real.sqrt_mul hab, Real.sqrt_mul hab, Real.sqrt_inv]
  set s := Real.sqrt (a + b) with hs
  set q := Real.sqrt p with hqd
  have hpq : p = q ^ 2 := (Real.sq_sqrt hp.le).symm
  by_cases hsz : s = 0
  · simp [hsz]
  · rw [hpq]
    field_simp
    ring

lemma stat_wald_swap (p : ℝ) (hp : 0 < p) (a b : ℝ) (ha : 0 ≤ a) (hb : 0 ≤ b) :
    test_stat_wald p⁻¹ b a = -test_stat_wald p a b := by
  unfold test_stat_wald
  have hpz : p ≠ 0 := ne_of_gt hp
  have hnn : 0 ≤ a + b * p ^ 2 := by positivity
  have h1 : b + a * (p⁻¹) ^ 2 = (a + b * p ^ 2) / p ^ 2 := by
    field_simp
    ring
  rw [h1, Real.sqrt_div hnn, Real.sqrt_sq hp.le]
  set u := Real.sqrt (a + b * p ^ 2) with hu
  by_cases huz : u = 0
  · simp [huz]
  · field_simp

lemma stat_sqrt_swap (p : ℝ) (hp : 0 < p) (a b : ℝ) (ha : 0 ≤ a) (hb : 0 ≤ b) :
    test_stat_sqrt p⁻¹ b a = -test_stat_sqrt p a b := by
  unfold test_stat_sqrt
  have ha' : (0 : ℝ) ≤ a + 3 / 8 := by linarith
  have hb' : (0 : ℝ) ≤ b + 3 / 8 := by linarith
  have hq : 0 < Real.sqrt p := Real.sqrt_pos.2 hp
  have h1p : (0 : ℝ) < 1 + p := by linarith
  have ht : 0 < Real.sqrt (1 + p) := Real.sqrt_pos.2 h1p
  have h1 : 1 + p⁻¹ = (1 + p) / p := by
    field_simp
    ring
  rw [h1, Real.sqrt_div h1p.le, Real.sqrt_mul ha', Real.sqrt_mul hb', Real.sqrt_inv]
  field_simp
  ring

/-! ## Claims -/

/-- C1: for every pair of counts (not both zero), positive exposures and
positive null ratio, `test_poisson_2indep` with `method = "score"` computes
the statistic `(y1 - y2*rd) / sqrt((y1 + y2)*rd)` with
`rd = ratio_null / (exposure2/exposure1)`, and its p-value from the standard
normal CDF `Phi`; in particular at `count1 = 10, exposure1 = 100,
count2 = 15, exposure2 = 100, ratio_null = 1`, two-sided, the statistic is
`(10 - 15)/sqrt(25) = -1` and the p-value is `2*(1 - Phi 1)`. -/
theorem score_test_statistic_and_pvalue (Phi : ℝ → ℝ)
    (B : ℕ → ℕ → ℝ → String → Except String ℝ) (c1 c2 : ℕ) (e1 e2 rn : ℚ)
    (hc : ¬(c1 = 0 ∧ c2 = 0)) (h1 : 0 < e1) (h2 : 0 < e2) (hr : 0 < rn) :
    test_poisson_2indep Phi B c1 e1 c2 e2 rn ("score") ("two-sided") =
      Except.ok
        { statistic := some (test_stat_score (r_d_of e1 e2 rn) (c1 : ℝ) (c2 : ℝ))
          pvalue := 2 * (1 - Phi |test_stat_score (r_d_of e1 e2 rn) (c1 : ℝ) (c2 : ℝ)|)
          distribution := "normal"
          method := "score"
          alternative := "two-sided"
          rates := ((c1 : ℝ) / (e1 : ℝ), (c2 : ℝ) / (e2 : ℝ))
          ratio := ((c1 : ℝ) / (e1 : ℝ)) / ((c2 : ℝ) / (e2 : ℝ))
          ratio_null := (rn : ℝ) } ∧
    test_poisson_2indep Phi B 10 100 15 100 1 ("score") ("two-sided") =
      Except.ok
        { statistic := some (-1)
          pvalue := 2 * (1 - Phi 1)
          distribution := "normal"
          method := "score"
          alternative := "two-sided"
          rates := (1 / 10, 3 / 20)
          ratio := 2 / 3
          ratio_null := 1 } := by
  refine ⟨rfl, ?_⟩
  have h25 : Real.sqrt 25 = 5 := by
    rw [show (25 : ℝ) = 5 ^ 2 by norm_num]
    exact Real.sqrt_sq (by norm_num)
  have hrd : r_d_of 100 100 1 = 1 := by unfold r_d_of; norm_num
  have hstat : test_stat_score (r_d_of 100 100 1) ((10 : ℕ) : ℝ) ((15 : ℕ) : ℝ) = -1 := by
    rw [hrd]; unfold test_stat_score test_stat_score_denom
    push_cast
    rw [show ((10 : ℝ) + 15) * 1 = 25 by norm_num, h25]
    norm_num
  have base : test_poisson_2indep Phi B 10 100 15 100 1 ("score") ("two-sided") =
      Except.ok
        { statistic := some (test_stat_score (r_d_of 100 100 1) ((10 : ℕ) : ℝ) ((15 : ℕ) : ℝ))
          pvalue :=
            2 * (1 - Phi |test_stat_score (r_d_of 100 100 1) ((10 : ℕ) : ℝ) ((15 : ℕ) : ℝ)|)
          distribution := "normal"
          method := "score"
          alternative := "two-sided"
          rates := (((10 : ℕ) : ℝ) / ((100 : ℚ) : ℝ), ((15 : ℕ) : ℝ) / ((100 : ℚ) : ℝ))
          ratio := (((10 : ℕ) : ℝ) / ((100 : ℚ) : ℝ)) / (((15 : ℕ) : ℝ) / ((100 : ℚ) : ℝ))
          ratio_null := ((1 : ℚ) : ℝ) } := rfl
  rw [base, hstat]
  push_cast
  norm_num [Except.ok.injEq, HolderTuple.mk.injEq, Prod.mk.injEq, abs_neg, abs_one]

/-- Witness for C1 at the concrete scenario of the spec. -/
theorem score_test_statistic_and_pvalue_witness :
    ¬((10 : ℕ) = 0 ∧ (15 : ℕ) = 0) ∧ (0 : ℚ) < 100 ∧ (0 : ℚ) < 1 ∧
    test_poisson_2indep Phi0 B0 10 100 15 100 1 ("score") ("two-sided") =
      Except.ok
        { statistic := some (-1)
          pvalue := 2 * (1 - Phi0 1)
          distribution := "normal"
          method := "score"
          alternative := "two-sided"
          rates := (1 / 10, 3 / 20)
          ratio := 2 / 3
          ratio_null := 1 } :=
  ⟨by decide, by decide, by decide,
    (score_test_statistic_and_pvalue Phi0 B0 10 15 100 100 1 (by decide) (by decide)
      (by decide) (by decide)).2⟩

/-- C2: for `low < upp`, `tost_poisson_2indep` is exactly the composition of
the two one-sided `test_poisson_2indep` calls — `ratio_null = low` with
alternative `larger` and `ratio_null = upp` with alternative `smaller`, the
counts, exposures and method passed through unchanged — returning
`(max t1.pvalue t2.pvalue, t1, t2)`. -/
theorem tost_is_max_of_two_one_sided (Phi : ℝ → ℝ)
    (B : ℕ → ℕ → ℝ → String → Except String ℝ) (c1 : ℕ) (e1 : ℚ) (c2 : ℕ) (e2 : ℚ)
    (low upp : ℚ) (m : String) (_h : low < upp) :
    tost_poisson_2indep Phi B c1 e1 c2 e2 low upp m =
      (test_poisson_2indep Phi B c1 e1 c2 e2 low m ("larger")).bind
        (fun t1 =>
          (test_poisson_2indep Phi B c1 e1 c2 e2 upp m ("smaller")).map
            (fun t2 => (max t1.pvalue t2.pvalue, t1, t2))) := rfl

/-- Witness for C2 at the spec scenario `low = 4/5`, `upp = 5/4`. -/
theorem tost_is_max_of_two_one_sided_witness :
    (4 / 5 : ℚ) < 5 / 4 ∧
    tost_poisson_2indep Phi0 B0 50 100 52 100 (4 / 5) (5 / 4) ("score") =
      (test_poisson_2indep Phi0 B0 50 100 52 100 (4 / 5) ("score") ("larger")).bind
        (fun t1 =>
          (test_poisson_2indep Phi0 B0 50 100 52 100 (5 / 4) ("score") ("smaller")).map
            (fun t2 => (max t1.pvalue t2.pvalue, t1, t2))) :=
  ⟨by norm_num,
    tost_is_max_of_two_one_sided Phi0 B0 50 100 52 100 (4 / 5) (5 / 4) ("score") (by norm_num)⟩

/-- C3 counterexample: with reversed bounds `low = 1, upp = 1/2` the source
raises nothing — `tost_poisson_2indep` returns a result, so the claimed
`InvalidArgument` for `low >= upp` does not exist in the code. -/
theorem tost_reversed_bounds_returns_result_cex :
    (tost_poisson_2indep Phi0 B0 10 100 15 100 1 (1 / 2) ("score")).toOption.isSome
      = true := rfl

/-- C3 amended: `tost_poisson_2indep` performs no validation of the bounds;
for every `upp ≤ low` it still returns the TOST tuple computed from the two
one-sided tests, exactly as for ordered bounds. -/
theorem tost_no_bounds_validation (Phi : ℝ → ℝ)
    (B : ℕ → ℕ → ℝ → String → Except String ℝ) (c1 : ℕ) (e1 : ℚ) (c2 : ℕ) (e2 : ℚ)
    (low upp : ℚ) (m : String) (_h : upp ≤ low) :
    tost_poisson_2indep Phi B c1 e1 c2 e2 low upp m =
      (test_poisson_2indep Phi B c1 e1 c2 e2 low m ("larger")).bind
        (fun t1 =>
          (test_poisson_2indep Phi B c1 e1 c2 e2 upp m ("smaller")).map
            (fun t2 => (max t1.pvalue t2.pvalue, t1, t2))) := rfl

/-- Witness for the amended C3 at `low = 1, upp = 1/2`. -/
theorem tost_no_bounds_validation_witness :
    (1 / 2 : ℚ) ≤ 1 ∧
    tost_poisson_2indep Phi0 B0 10 100 15 100 1 (1 / 2) ("score") =
      (test_poisson_2indep Phi0 B0 10 100 15 100 1 ("score") ("larger")).bind
        (fun t1 =>
          (test_poisson_2indep Phi0 B0 10 100 15 100 (1 / 2) ("score") ("smaller")).map
            (fun t2 => (max t1.pvalue t2.pvalue, t1, t2))) :=
  ⟨by norm_num,
    tost_no_bounds_validation Phi0 B0 10 100 15 100 1 (1 / 2) ("score") (by norm_num)⟩

/-- C4 counterexample: at `exposure1 = -1` (non-positive) the source raises
nothing — `test_poisson_2indep` returns a result record, so the claimed
`InvalidArgument` for non-positive exposure does not exist in the code. -/
theorem test_negative_exposure_returns_result_cex :
    (test_poisson_2indep Phi0 B0 10 (-1) 15 100 1 ("score") ("two-sided")).toOption.isSome
      = true := rfl

/-- C4 amended: `test_poisson_2indep` performs no validation of the
exposures: with a recognized method and alternative it returns a result
record even when an exposure is negative, computing with the junk values
(floating-point `nan` in the original).  (A zero `exposure1` instead hits
Python float division by zero at `d = n2/n1`, again not an
`InvalidArgument`; the hypotheses exclude zero denominators, which ideal
rational arithmetic would silently absorb.) -/
theorem test_no_exposure_validation (Phi : ℝ → ℝ)
    (B : ℕ → ℕ → ℝ → String → Except String ℝ) (c1 c2 : ℕ) (e1 e2 rn : ℚ)
    (hne1 : e1 ≠ 0) (hne2 : e2 ≠ 0) (h : e1 < 0 ∨ e2 < 0) :
    (test_poisson_2indep Phi B c1 e1 c2 e2 rn ("score") ("two-sided")).toOption.isSome
      = true := by
  simp +decide [test_poisson_2indep, test_core, zstat_generic2, Except.map, Except.toOption]

/-- Witness for the amended C4 at `exposure1 = -1`. -/
theorem test_no_exposure_validation_witness :
    (-1 : ℚ) ≠ 0 ∧ (100 : ℚ) ≠ 0 ∧ ((-1 : ℚ) < 0 ∨ (100 : ℚ) < 0) ∧
    (test_poisson_2indep Phi0 B0 10 (-1) 15 100 1 ("score") ("two-sided")).toOption.isSome
      = true :=
  ⟨by decide, by decide, by decide,
    test_no_exposure_validation Phi0 B0 10 15 (-1) 100 1 (by decide) (by decide)
      (by decide)⟩

/-- C5: calling `etest_poisson_2indep` with an explicitly supplied support
grid does not succeed: the source assigns the local `y_grid` only in the
`ygrid is None` branch (src lines 173-176) and then reads `y_grid`
unconditionally (src line 177), so a supplied grid raises `NameError`
instead of being used. -/
theorem etest_supplied_grid_name_error :
    etest_poisson_2indep 0 10 100 15 100 1 ("score") ("two-sided") (some [0, 1, 2]) =
      Except.error ("NameError: y_grid is not defined") := rfl

/-- C6: whenever `test_poisson_2indep` returns a result record, the record
satisfies `rates = (count1/exposure1, count2/exposure2)` and
`ratio = rates.1 / rates.2` exactly, and the `method`, `alternative` and
`ratio_null` fields echo the inputs unchanged — independent of which method
or alternative was chosen. -/
theorem result_rates_ratio_and_echo_fields (Phi : ℝ → ℝ)
    (B : ℕ → ℕ → ℝ → String → Except String ℝ) (c1 : ℕ) (e1 : ℚ) (c2 : ℕ) (e2 : ℚ)
    (rn : ℚ) (m a : String) (res : HolderTuple)
    (h : test_poisson_2indep Phi B c1 e1 c2 e2 rn m a = Except.ok res) :
    res.rates = ((c1 : ℝ) / (e1 : ℝ), (c2 : ℝ) / (e2 : ℝ)) ∧
    res.ratio = res.rates.1 / res.rates.2 ∧
    res.method = m ∧ res.alternative = a ∧ res.ratio_null = (rn : ℝ) := by
  unfold test_poisson_2indep at h
  cases hc : test_core Phi B c1 c2 (r_d_of e1 e2 rn) m a with
  | error e => rw [hc] at h; simp [Except.map] at h
  | ok x =>
    rw [hc] at h
    simp only [Except.map] at h
    cases h
    simp

/-- Witness for C6 with the exact conditional method. -/
theorem result_rates_ratio_and_echo_fields_witness :
    test_poisson_2indep Phi0 B0 10 100 15 100 1 ("exact-cond") ("two-sided") =
      Except.ok exact_cond_record ∧
    exact_cond_record.rates = (((10 : ℕ) : ℝ) / ((100 : ℚ) : ℝ), ((15 : ℕ) : ℝ) / ((100 : ℚ) : ℝ)) ∧
    exact_cond_record.ratio = exact_cond_record.rates.1 / exact_cond_record.rates.2 ∧
    exact_cond_record.method = "exact-cond" ∧
    exact_cond_record.alternative = "two-sided" ∧
    exact_cond_record.ratio_null = ((1 : ℚ) : ℝ) :=
  ⟨rfl, result_rates_ratio_and_echo_fields Phi0 B0 10 100 15 100 1 ("exact-cond")
    ("two-sided") exact_cond_record rfl⟩

/-- C7: for positive exposures and a positive null ratio, whenever the
external binomial test reports p-value `p`, the `cond-midp` p-value is
exactly `p - 0.5 * Pr(Y = count1 | Binomial(count1+count2, rd/(1+rd)))`
while the `exact-cond` p-value is `p`; the point mass is strictly positive,
hence `cond-midp` is strictly below `exact-cond` (so `≤` holds, with
equality only possible if the point mass were zero). -/
theorem cond_midp_is_exact_cond_minus_half_point_mass (Phi : ℝ → ℝ)
    (B : ℕ → ℕ → ℝ → String → Except String ℝ) (c1 c2 : ℕ) (e1 e2 rn : ℚ)
    (a : String) (p : ℝ) (h1 : 0 < e1) (h2 : 0 < e2) (hr : 0 < rn)
    (hB : B c1 (c1 + c2) (r_d_of e1 e2 rn / (1 + r_d_of e1 e2 rn)) a = Except.ok p) :
    (test_poisson_2indep Phi B c1 e1 c2 e2 rn ("cond-midp") a).toOption.map
        HolderTuple.pvalue =
      some (p - 0.5 * binom_pmf c1 (c1 + c2) (r_d_of e1 e2 rn / (1 + r_d_of e1 e2 rn))) ∧
    (test_poisson_2indep Phi B c1 e1 c2 e2 rn ("exact-cond") a).toOption.map
        HolderTuple.pvalue = some p ∧
    0 < binom_pmf c1 (c1 + c2) (r_d_of e1 e2 rn / (1 + r_d_of e1 e2 rn)) ∧
    p - 0.5 * binom_pmf c1 (c1 + c2) (r_d_of e1 e2 rn / (1 + r_d_of e1 e2 rn)) < p := by
  have hrd : 0 < r_d_of e1 e2 rn := r_d_of_pos e1 e2 rn h1 h2 hr
  have hbp0 : 0 < r_d_of e1 e2 rn / (1 + r_d_of e1 e2 rn) := by positivity
  have hbp1 : r_d_of e1 e2 rn / (1 + r_d_of e1 e2 rn) < 1 := by
    rw [div_lt_one (by positivity)]; linarith
  have hpmf : 0 < binom_pmf c1 (c1 + c2) (r_d_of e1 e2 rn / (1 + r_d_of e1 e2 rn)) := by
    unfold binom_pmf
    have hch : (0 : ℝ) < ((c1 + c2).choose c1 : ℝ) := by
      exact_mod_cast Nat.choose_pos (Nat.le_add_right c1 c2)
    have h1b : (0 : ℝ) < 1 - r_d_of e1 e2 rn / (1 + r_d_of e1 e2 rn) := by linarith
    exact mul_pos (mul_pos hch (pow_pos hbp0 c1)) (pow_pos h1b _)
  refine ⟨?_, ?_, hpmf, ?_⟩
  · simp only [test_poisson_2indep, test_core]
    norm_num
    rw [hB]
    simp [Except.map, Except.toOption]
  · simp only [test_poisson_2indep, test_core]
    norm_num
    rw [hB]
    simp [Except.map, Except.toOption]
  · have h05 : 0 < 0.5 * binom_pmf c1 (c1 + c2)
        (r_d_of e1 e2 rn / (1 + r_d_of e1 e2 rn)) := by nlinarith
    linarith

/-- Witness for C7 at the spec scenario with the stand-in binomial test. -/
theorem cond_midp_is_exact_cond_minus_half_point_mass_witness :
    (0 : ℚ) < 100 ∧ (0 : ℚ) < 1 ∧
    B0 10 (10 + 15) (r_d_of 100 100 1 / (1 + r_d_of 100 100 1)) ("two-sided") =
      Except.ok (1 / 2) ∧
    ((test_poisson_2indep Phi0 B0 10 100 15 100 1 ("cond-midp") ("two-sided")).toOption.map
        HolderTuple.pvalue =
      some ((1 / 2) -
        0.5 * binom_pmf 10 (10 + 15) (r_d_of 100 100 1 / (1 + r_d_of 100 100 1))) ∧
    (test_poisson_2indep Phi0 B0 10 100 15 100 1 ("exact-cond") ("two-sided")).toOption.map
        HolderTuple.pvalue = some (1 / 2) ∧
    0 < binom_pmf 10 (10 + 15) (r_d_of 100 100 1 / (1 + r_d_of 100 100 1)) ∧
    (1 / 2 : ℝ) -
        0.5 * binom_pmf 10 (10 + 15) (r_d_of 100 100 1 / (1 + r_d_of 100 100 1)) < 1 / 2) :=
  ⟨by decide, by decide, rfl,
    cond_midp_is_exact_cond_minus_half_point_mass Phi0 B0 10 15 100 100 1 ("two-sided")
      (1 / 2) (by decide) (by decide) (by decide) rfl⟩

/-- C8 counterexample: in `test_poisson_2indep` there is no additive epsilon
guarding the statistic denominator: at `count1 = count2 = 0` (with
`exposure1 = exposure2 = 100`, `ratio_null = 1`) the score statistic divides
by exactly `sqrt((0+0)*r_d) = 0` (floating-point `nan` in the original),
contradicting the claim that an epsilon guard yields a valid p-value near 1
for every supported method. -/
theorem test_statistic_denominator_no_epsilon_cex :
    test_stat_score_denom (r_d_of 100 100 1) 0 0 = 0 := by
  unfold test_stat_score_denom
  simp

/-- C8 amended: the additive-epsilon guard exists only in
`etest_poisson_2indep` (the `1e-20` inside its statistic function): there,
`count1 = count2 = 0` gives statistic `0` and p-value exactly `1` (the whole
truncated grid mass) for both methods and every alternative, while in
`test_poisson_2indep` the score-statistic denominator at zero counts is
exactly `0` (`nan` in floating point), with no epsilon. -/
theorem epsilon_guard_only_in_etest (T : ℕ) (e1 e2 rn : ℚ) (m a : String)
    (hm : m ∈ (["score", "wald"] : List String))
    (ha : a ∈ (["two-sided", "larger", "smaller"] : List String)) :
    etest_poisson_2indep T 0 e1 0 e2 rn m a none = Except.ok (0, 1) ∧
    test_stat_score_denom (r_d_of e1 e2 rn) 0 0 = 0 := by
  constructor
  · simp only [List.mem_cons, List.not_mem_nil, or_false] at hm ha
    rcases hm with rfl | rfl <;> rcases ha with rfl | rfl | rfl <;>
      · simp +decide [etest_poisson_2indep, etest_mean1_zero, etest_mean2_zero,
          poisson_pmf_zero_mean, etest_stat_func_zero0, Except.ok.injEq, Prod.mk.injEq]
        refine sum_delta_one _ _ ?_ ?_
        · simp [etest_stat_func_zero0]
          norm_num
        · intro i j hij
          rcases hij with hi | hj
          · simp [hi]
          · simp [hj]
  · unfold test_stat_score_denom
    simp

/-- Witness for the amended C8. -/
theorem epsilon_guard_only_in_etest_witness :
    ("score" : String) ∈ (["score", "wald"] : List String) ∧
    ("two-sided" : String) ∈ (["two-sided", "larger", "smaller"] : List String) ∧
    (etest_poisson_2indep 0 0 100 0 100 1 ("score") ("two-sided") none = Except.ok (0, 1) ∧
      test_stat_score_denom (r_d_of 100 100 1) 0 0 = 0) :=
  ⟨by decide, by decide,
    epsilon_guard_only_in_etest 0 100 100 1 ("score") ("two-sided") (by decide) (by decide)⟩

/-- C9: for every input with positive exposures and null ratio and a
normal-approximation method (`score`, `wald`, `sqrt`), swapping
`(count1, exposure1)` with `(count2, exposure2)` and replacing the null
ratio by its reciprocal yields a record whose `ratio` is the reciprocal of
the original `ratio`, whose statistic is the negation of the original
statistic, and whose one-sided p-value under the mirrored alternative
(`larger` swapped with `smaller`) equals the original one-sided p-value —
given the reflection identity `Phi (-x) = 1 - Phi x` of the standard-normal
CDF. -/
theorem swap_symmetry_reciprocal_null (Phi : ℝ → ℝ)
    (B : ℕ → ℕ → ℝ → String → Except String ℝ) (hPhi : ∀ x, Phi (-x) = 1 - Phi x)
    (c1 c2 : ℕ) (e1 e2 rn : ℚ) (h1 : 0 < e1) (h2 : 0 < e2) (hr : 0 < rn)
    (m : String) (hm : m ∈ (["score", "wald", "sqrt"] : List String))
    (alt alt' : String)
    (ha : (alt, alt') ∈
      ([("larger", "smaller"), ("smaller", "larger")] : List (String × String))) :
    (test_poisson_2indep Phi B c2 e2 c1 e1 (1 / rn) m alt').toOption.map
        (fun res => (res.ratio, res.statistic, res.pvalue)) =
    (test_poisson_2indep Phi B c1 e1 c2 e2 rn m alt).toOption.map
        (fun res => (res.ratio⁻¹, res.statistic.map (fun s => -s), res.pvalue)) := by
  have hrd : 0 < r_d_of e1 e2 rn := r_d_of_pos e1 e2 rn h1 h2 hr
  have hswap : r_d_of e2 e1 rn⁻¹ = (r_d_of e1 e2 rn)⁻¹ :=
    r_d_of_swap_inv e1 e2 rn h1 h2 hr
  have hsc : test_stat_score (r_d_of e2 e1 rn⁻¹) ((c2 : ℕ) : ℝ) ((c1 : ℕ) : ℝ) =
      -test_stat_score (r_d_of e1 e2 rn) ((c1 : ℕ) : ℝ) ((c2 : ℕ) : ℝ) := by
    rw [hswap]; exact stat_score_swap _ hrd _ _ (by positivity)
  have hw : test_stat_wald (r_d_of e2 e1 rn⁻¹) ((c2 : ℕ) : ℝ) ((c1 : ℕ) : ℝ) =
      -test_stat_wald (r_d_of e1 e2 rn) ((c1 : ℕ) : ℝ) ((c2 : ℕ) : ℝ) := by
    rw [hswap]
    exact stat_wald_swap _ hrd _ _ (Nat.cast_nonneg c1) (Nat.cast_nonneg c2)
  have hsq : test_stat_sqrt (r_d_of e2 e1 rn⁻¹) ((c2 : ℕ) : ℝ) ((c1 : ℕ) : ℝ) =
      -test_stat_sqrt (r_d_of e1 e2 rn) ((c1 : ℕ) : ℝ) ((c2 : ℕ) : ℝ) := by
    rw [hswap]
    exact stat_sqrt_swap _ hrd _ _ (Nat.cast_nonneg c1) (Nat.cast_nonneg c2)
  simp only [List.mem_cons, List.not_mem_nil, or_false, Prod.mk.injEq] at hm ha
  rcases hm with rfl | rfl | rfl <;> rcases ha with ⟨rfl, rfl⟩ | ⟨rfl, rfl⟩ <;>
    simp +decide [test_poisson_2indep, test_core, zstat_generic2, Except.map,
      Except.toOption] <;>
    first
    | exact ⟨hsc, by rw [hsc, hPhi]; try ring⟩
    | exact ⟨hw, by rw [hw, hPhi]; try ring⟩
    | exact ⟨hsq, by rw [hsq, hPhi]; try ring⟩

/-- Witness for C9 with the symmetric stand-in CDF `Phi0`. -/
theorem swap_symmetry_reciprocal_null_witness :
    (∀ x : ℝ, Phi0 (-x) = 1 - Phi0 x) ∧ (0 : ℚ) < 100 ∧ (0 : ℚ) < 2 ∧
    ("score" : String) ∈ (["score", "wald", "sqrt"] : List String) ∧
    ((("larger" : String), ("smaller" : String)) ∈
      ([("larger", "smaller"), ("smaller", "larger")] : List (String × String))) ∧
    (test_poisson_2indep Phi0 B0 15 100 10 50 (1 / 2) ("score") ("smaller")).toOption.map
        (fun res => (res.ratio, res.statistic, res.pvalue)) =
    (test_poisson_2indep Phi0 B0 10 50 15 100 2 ("score") ("larger")).toOption.map
        (fun res => (res.ratio⁻¹, res.statistic.map (fun s => -s), res.pvalue)) :=
  ⟨fun x => by norm_num [Phi0], by decide, by decide, by decide, by decide,
    swap_symmetry_reciprocal_null Phi0 B0 (fun x => by norm_num [Phi0]) 10 15 50 100 2
      (by decide) (by decide) (by decide) ("score") (by decide) ("larger") ("smaller")
      (by decide)⟩

/-- C10: the constrained null means of the E-test enumeration distribution
satisfy `mean1 + mean2 = count1 + count2` exactly and `mean1 = r_d * mean2`,
for all counts, positive exposures and positive null ratio. -/
theorem etest_null_means_constraints (c1 c2 : ℕ) (e1 e2 rn : ℚ)
    (h1 : 0 < e1) (h2 : 0 < e2) (hr : 0 < rn) :
    etest_mean1 c1 c2 (e1 : ℝ) (e2 : ℝ) (rn : ℝ) (r_d_of e1 e2 rn) +
      etest_mean2 c1 c2 (e2 : ℝ) (r_d_of e1 e2 rn) = (c1 : ℝ) + (c2 : ℝ) ∧
    etest_mean1 c1 c2 (e1 : ℝ) (e2 : ℝ) (rn : ℝ) (r_d_of e1 e2 rn) =
      r_d_of e1 e2 rn * etest_mean2 c1 c2 (e2 : ℝ) (r_d_of e1 e2 rn) := by
  have he1 : ((e1 : ℝ)) ≠ 0 := ne_of_gt (by exact_mod_cast h1)
  have he2 : ((e2 : ℝ)) ≠ 0 := ne_of_gt (by exact_mod_cast h2)
  have hrn : ((rn : ℝ)) ≠ 0 := ne_of_gt (by exact_mod_cast hr)
  have hrd : 0 < r_d_of e1 e2 rn := r_d_of_pos e1 e2 rn h1 h2 hr
  have hrd1 : (1 : ℝ) + r_d_of e1 e2 rn ≠ 0 := by positivity
  constructor
  · unfold etest_mean1 etest_mean2 etest_rate2_cmle r_d_of at *
    field_simp
    ring
  · unfold etest_mean1 etest_mean2 etest_rate2_cmle r_d_of at *
    field_simp
    ring

/-- Witness for C10 at the spec scenario. -/
theorem etest_null_means_constraints_witness :
    (0 : ℚ) < 100 ∧ (0 : ℚ) < 1 ∧
    (etest_mean1 10 15 ((100 : ℚ) : ℝ) ((100 : ℚ) : ℝ) ((1 : ℚ) : ℝ) (r_d_of 100 100 1) +
        etest_mean2 10 15 ((100 : ℚ) : ℝ) (r_d_of 100 100 1) = ((10 : ℕ) : ℝ) + ((15 : ℕ) : ℝ) ∧
      etest_mean1 10 15 ((100 : ℚ) : ℝ) ((100 : ℚ) : ℝ) ((1 : ℚ) : ℝ) (r_d_of 100 100 1) =
        r_d_of 100 100 1 * etest_mean2 10 15 ((100 : ℚ) : ℝ) (r_d_of 100 100 1)) :=
  ⟨by decide, by decide,
    etest_null_means_constraints 10 15 100 100 1 (by decide) (by decide) (by decide)⟩

end
